import Mathlib

/-!
Shallow embedding of the "Bos Upety" WhatsApp finance bot.

The Python sources are translated definition by definition:
* `GeminiService` — `gemini_service.py` (AI classification with keyword fallback),
* `SheetsService` — `sheets_service.py` (remote ledger append with a 3-attempt retry),
* `BackupService` — `backup_service.py` (local CSV mirror and sheet reconciliation),
* `SchedulerService` — `scheduler.py` (fixed-time schedule table and poll loop),
* top-level `process_transaction` / `handle_special_commands` / `webhook` — `main.py`.

External effects (the Gemini HTTP call, the spreadsheet API, wall-clock
timestamps) are passed in as explicit oracle values; everything the repository
itself computes (routing conditions, balance arithmetic, row layout, retry
control flow, keyword matching, digit extraction) is modelled executably.
-/

namespace BotWA

/-- One cell of a ledger/CSV row: a string or an integer, mirroring the Python
values placed in `row_data` lists. -/
inductive Cell where
  | s (v : String)
  | i (v : Int)
  deriving DecidableEq

/-- A transaction dict as passed to the two `save_transaction` functions:
each key may be absent (Python `dict.get` supplies the default).
`priv` stands for the Python key `private`. -/
structure TxDict where
  tanggal : Option String
  deskripsi : Option String
  jumlah : Option Int
  tipe : Option String
  kategori : Option String
  saldo : Option Int
  bukti : Option String
  priv : Option String
  deriving DecidableEq

/-- A fully-parsed transaction as returned by `BackupService.get_transactions`
and `SheetsService.get_recent_transactions` (all keys present). -/
structure Tx where
  tanggal : String
  deskripsi : String
  jumlah : Int
  tipe : String
  kategori : String
  saldo : Int
  bukti : String
  priv : String
  deriving DecidableEq

/-- The JSON object produced by the AI (or the fallback parser): each field may
be missing from the parsed dict. -/
structure AiResult where
  deskripsi : Option String
  jumlah : Option Int
  tipe : Option String
  kategori : Option String
  bukti : Option String
  tanggapan_bot : Option String
  deriving DecidableEq

/-! ### String helpers mirroring the Python string operations -/

/-- ASCII lower-casing, modelling Python `str.lower()` on the message text. -/
def asciiLower (s : String) : String := ⟨s.data.map Char.toLower⟩

/-- `isPrefixOfL a b = true` iff `a` is a prefix of `b` (on character lists). -/
def isPrefixOfL : List Char → List Char → Bool
  | [], _ => true
  | _ :: _, [] => false
  | a :: as, b :: bs => a == b && isPrefixOfL as bs

/-- `containsL needle hay = true` iff `needle` occurs as a contiguous substring
of `hay`; models the Python `needle in hay` test on strings. -/
def containsL (needle : List Char) : List Char → Bool
  | [] => isPrefixOfL needle []
  | b :: bs => isPrefixOfL needle (b :: bs) || containsL needle bs

/-- Python `needle in hay` for strings. -/
def pyContains (hay needle : String) : Bool := containsL needle.data hay.data

/-- Python `s.replace("+", "")` as used on the sender phone number. -/
def stripPlus (s : String) : String := ⟨s.data.filter (fun c => c != '+')⟩

/-- `isBlank s = true` iff `s.strip()` is falsy in Python, i.e. the string is
all whitespace. -/
def isBlank (s : String) : Bool := s.data.all Char.isWhitespace

/-- Python `x in [member, ...]` test on a list of strings. -/
def strMem (s : String) : List String → Bool
  | [] => false
  | x :: xs => x == s || strMem s xs

/-- Value of a digit string, modelling Python `int` on a run of digits. -/
def natOfDigits (ds : List Char) : Nat := ds.foldl (fun n c => n * 10 + (c.toNat - 48)) 0

/-- Worker for `digitRuns`: `acc` holds the reversed digits of the run in
progress. -/
def digitRunsAux : List Char → List Char → List (List Char)
  | [], acc => if acc.isEmpty then [] else [acc.reverse]
  | c :: cs, acc =>
    if c.isDigit then digitRunsAux cs (c :: acc)
    else if acc.isEmpty then digitRunsAux cs []
    else acc.reverse :: digitRunsAux cs []

/-- The maximal runs of consecutive digits of a string, in order; models the
Python `re.findall` of one-or-more digits. -/
def digitRuns (cs : List Char) : List (List Char) := digitRunsAux cs []

/-- `int(amounts[-1]) if amounts else 0` from `_fallback_parse`: the last run of
digits of the message as a number, or `0` when the message has no digit. -/
def lastAmount (msg : String) : Nat :=
  match (digitRuns msg.data).getLast? with
  | some run => natOfDigits run
  | none => 0

/-- Insert a comma after every third character; the input is the reversed digit
list of a number. Models the grouping of Python format specifier `:,`. -/
def group3 : List Char → List Char
  | [] => []
  | [a] => [a]
  | [a, b] => [a, b]
  | [a, b, c] => [a, b, c]
  | a :: b :: c :: d :: rest => a :: b :: c :: ',' :: group3 (d :: rest)

/-- Python `f-string` thousands formatting of a natural number. -/
def commaNat (n : Nat) : String := ⟨(group3 (toString n).data.reverse).reverse⟩

/-- Python `f-string` thousands formatting of an integer. -/
def commaInt (n : Int) : String :=
  if n < 0 then "-" ++ commaNat n.natAbs else commaNat n.natAbs

/-! ### The keyword fallback classifier (`GeminiService._fallback_parse`) -/

/-- Direction chosen by `_fallback_parse`'s keyword scan. -/
def fallback_tipe (message_text : String) : String :=
  let ml := asciiLower message_text
  if (["tf", "transfer", "terima", "dari", "masuk"].any fun w => pyContains ml w) = true then "IN"
  else if (["beli", "bayar", "keluar", "habis"].any fun w => pyContains ml w) = true then "OUT"
  else "INFO"

/-- Category chosen by `_fallback_parse`'s keyword scan. -/
def fallback_kategori (message_text : String) : String :=
  let ml := asciiLower message_text
  if (["makan", "minum", "kopi", "restoran", "snack"].any fun w => pyContains ml w) = true then
    "Makanan & Minuman"
  else if (["bensin", "parkir", "tol", "gojek", "grab", "ojek"].any fun w => pyContains ml w) = true then
    "Transportasi"
  else if (["hotel", "karaoke", "spa", "pijat"].any fun w => pyContains ml w) = true then
    "Hiburan"
  else if (["rokok", "parfum", "hadiah", "baju", "sepatu"].any fun w => pyContains ml w) = true then
    "Pribadi"
  else if (["sabun", "deterjen", "tissue", "rumah"].any fun w => pyContains ml w) = true then
    "Rumah Tangga"
  else if (["transfer", "top up", "kirim", "tf"].any fun w => pyContains ml w) = true then
    "Keuangan"
  else "Lainnya"

/-- `GeminiService._fallback_parse`: keyword-based classification of the raw
message; the AI response text argument is unused by the Python body as well. -/
def fallback_parse (message_text : String) (_ai_response : String) : AiResult :=
  let amount := lastAmount message_text
  { deskripsi := some message_text
    jumlah := some (Int.ofNat amount)
    tipe := some (fallback_tipe message_text)
    kategori := some (fallback_kategori message_text)
    bukti := some ""
    tanggapan_bot := some
      ("✅ Dicatat: " ++ message_text ++ "\n💸 Rp" ++ commaNat amount ++
        "\n📂 Kategori: " ++ fallback_kategori message_text) }

/-- The `required_fields` check of `_analyze_text_only`:
`deskripsi, jumlah, tipe, kategori, tanggapan_bot` must all be present. -/
def has_required (r : AiResult) : Bool :=
  r.deskripsi.isSome && r.jumlah.isSome && r.tipe.isSome &&
    r.kategori.isSome && r.tanggapan_bot.isSome

/-! ### Retry skeleton shared by `analyze_transaction` and `save_transaction` -/

/-- Observable outcome of the `for attempt in range(3)` retry loop: the final
value, the number of attempts made, the list of sleep durations performed
between attempts, and the assignment (if any) the loop makes to
`health_status`. -/
structure RetryResult (α : Type) where
  result : Option α
  attempts : Nat
  sleeps : List Nat
  healthSet : Option Bool

/-- The three-attempt retry loop with `time.sleep(1)` between attempts:
`body n = none` models the n-th attempt raising an exception, `some v` a
normal return.  After the third failure `health_status` is set to `False`
and the exception propagates (the caller turns it into a failure value). -/
def retry3 {α : Type} (body : Nat → Option α) : RetryResult α :=
  match body 0 with
  | some v => ⟨some v, 1, [], none⟩
  | none =>
    match body 1 with
    | some v => ⟨some v, 2, [1], none⟩
    | none =>
      match body 2 with
      | some v => ⟨some v, 3, [1, 1], none⟩
      | none => ⟨none, 3, [1, 1], some false⟩

/-! ### `GeminiService` (`gemini_service.py`) -/

/-- Outcome of one Gemini HTTP request: an exception anywhere in the attempt
(network error, malformed response body), or an HTTP reply with its status
code and the extracted candidate text. -/
inductive AiCallOutcome where
  | netError
  | http (status : Nat) (content : String)
  deriving DecidableEq

namespace GeminiService

/-- `GeminiService._analyze_text_only`: on a 200 reply the candidate text is
JSON-parsed (`parseJson` abstracts brace extraction plus `json.loads`); a
parse failure or a missing required field falls back to `_fallback_parse`;
a non-200 status or an exception yields `None`. -/
def analyze_text_only (parseJson : String → Option AiResult) (message_text : String) :
    AiCallOutcome → Option AiResult
  | .netError => none
  | .http status content =>
    if status = 200 then
      match parseJson content with
      | some r =>
        if has_required r = true then some r else some (fallback_parse message_text content)
      | none => some (fallback_parse message_text content)
    else none

/-- The retry loop of `GeminiService.analyze_transaction` (text-only path,
`media_url is None`). The loop body returns the value of
`_analyze_text_only`, which never raises: it catches its own exceptions. -/
def analyze_transaction_run (parseJson : String → Option AiResult) (message_text : String)
    (outcome : AiCallOutcome) : RetryResult (Option AiResult) :=
  retry3 (fun _ => some (analyze_text_only parseJson message_text outcome))

/-- `GeminiService.analyze_transaction` for a text message: the value returned
to `process_transaction` (`None` when the retry loop was exhausted). -/
def analyze_transaction (parseJson : String → Option AiResult) (message_text : String)
    (outcome : AiCallOutcome) : Option AiResult :=
  (analyze_transaction_run parseJson message_text outcome).result.join

end GeminiService

/-! ### `SheetsService` (`sheets_service.py`) -/

namespace SheetsService

/-- The `row_data` list built by `SheetsService.save_transaction`, with the
Python `dict.get` defaults. -/
def row_data (d : TxDict) : List Cell :=
  [.s (d.tanggal.getD ""), .s (d.deskripsi.getD ""), .i (d.jumlah.getD 0),
   .s (d.tipe.getD "INFO"), .s (d.kategori.getD "Lainnya"), .i (d.saldo.getD 0),
   .s (d.bukti.getD ""), .s (d.priv.getD "No")]

/-- Observable outcome of `SheetsService.save_transaction`. -/
structure SaveResult where
  success : Bool
  ledger : List (List Cell)
  attempts : Nat
  sleeps : List Nat
  healthSet : Option Bool

/-- `SheetsService.save_transaction`: if no worksheet is connected (and
reconnection fails) it returns `False` at once; otherwise each of up to
three attempts runs `append_row` and then `columns_auto_resize` inside one
`try`.  `append_ok n` tells whether the n-th `append_row` call succeeds (in
which case the row is already in the sheet), `resize_ok n` whether the
following `columns_auto_resize` succeeds; the attempt as a whole succeeds
only if both do, so a resize failure after a successful append leaves the
row behind and the retry appends it again.  Success sets
`health_status = True`, exhaustion sets it to `False`. -/
def save_transaction (connected : Bool) (append_ok resize_ok : Nat → Bool) (d : TxDict)
    (ws : List (List Cell)) : SaveResult :=
  if connected = true then
    let row := row_data d
    let ws0 := if append_ok 0 = true then ws ++ [row] else ws
    if (append_ok 0 && resize_ok 0) = true then ⟨true, ws0, 1, [], some true⟩
    else
      let ws1 := if append_ok 1 = true then ws0 ++ [row] else ws0
      if (append_ok 1 && resize_ok 1) = true then ⟨true, ws1, 2, [1], some true⟩
      else
        let ws2 := if append_ok 2 = true then ws1 ++ [row] else ws1
        if (append_ok 2 && resize_ok 2) = true then ⟨true, ws2, 3, [1, 1], some true⟩
        else ⟨false, ws2, 3, [1, 1], some false⟩
  else ⟨false, ws, 0, [], none⟩

/-- The number of rows one `save_transaction` call (with a connected
worksheet) leaves in the sheet: one per attempt actually made whose
`append_row` succeeded, counting the successful attempt and every earlier
failed one. -/
def append_count (append_ok resize_ok : Nat → Bool) : Nat :=
  let a0 : Nat := if append_ok 0 = true then 1 else 0
  if (append_ok 0 && resize_ok 0) = true then a0
  else
    let a1 : Nat := a0 + (if append_ok 1 = true then 1 else 0)
    if (append_ok 1 && resize_ok 1) = true then a1
    else a1 + (if append_ok 2 = true then 1 else 0)

/-- `SheetsService.get_current_balance`: the `Saldo` column (index 5) of the
last row, `0` when the sheet is empty or the cell is not an integer. -/
def get_current_balance (rows : List (List Cell)) : Int :=
  match rows.getLast? with
  | none => 0
  | some row =>
    match row.get? 5 with
    | some (.i v) => v
    | _ => 0

/-- `SheetsService.get_recent_transactions`: the last `limit` records when
more than `limit` exist — Python `records[-limit:]`, which for `limit = 0`
is the whole list — otherwise all records. -/
def get_recent_transactions (limit : Nat) (records : List Tx) : List Tx :=
  if records.length > limit then
    (if limit = 0 then records else records.drop (records.length - limit))
  else records

end SheetsService

/-! ### `BackupService` (`backup_service.py`) -/

namespace BackupService

/-- The `row_data` list built by `BackupService.save_transaction` for the local
CSV, with the same `dict.get` defaults as the sheet writer. -/
def row_data (d : TxDict) : List Cell :=
  [.s (d.tanggal.getD ""), .s (d.deskripsi.getD ""), .i (d.jumlah.getD 0),
   .s (d.tipe.getD "INFO"), .s (d.kategori.getD "Lainnya"), .i (d.saldo.getD 0),
   .s (d.bukti.getD ""), .s (d.priv.getD "No")]

/-- `BackupService.save_transaction`: appends one row to the local CSV and
returns `True` (the pure model has no I/O failure). -/
def save_transaction (d : TxDict) (csv : List (List Cell)) : Bool × List (List Cell) :=
  (true, csv ++ [row_data d])

/-- The reconciliation key of `sync_with_sheets`:
`t['deskripsi'] + t['tanggal']`. -/
def keyOf (t : Tx) : String := t.deskripsi ++ t.tanggal

/-- The `for sheet_trans in sheets_transactions` loop of `sync_with_sheets`:
rows whose key is absent from the (fixed) local key set are appended, in
order, and counted as synced. -/
def syncLoop (keys : List String) : List Tx → List Tx × Nat
  | [] => ([], 0)
  | t :: ts =>
    let rest := syncLoop keys ts
    if strMem (keyOf t) keys = true then rest else (t :: rest.1, rest.2 + 1)

/-- `BackupService.sync_with_sheets`: the remote side is
`sheets_service.get_recent_transactions(1000)` — only the most recent 1000
remote rows.  Local rows are read once, their description+date keys
collected, and each windowed remote row with an unseen key is appended to
the local backup.  Returns the new local table, the (untouched) remote
table, and the number of rows synced. -/
def sync_with_sheets (localTx sheetsRecords : List Tx) : List Tx × List Tx × Nat :=
  let sheetsTx := SheetsService.get_recent_transactions 1000 sheetsRecords
  let keys := localTx.map keyOf
  let r := syncLoop keys sheetsTx
  (localTx ++ r.1, sheetsRecords, r.2)

end BackupService

/-! ### `main.py`: transaction processing and the webhook -/

/-- External inputs of one webhook invocation: the Gemini result for this
message, the sheet connection state, the per-attempt outcomes of
`append_row` and of `columns_auto_resize`, the two timestamp strings, and
the daily-report text (whose formatting over remote reads is not
modelled). -/
structure Oracle where
  aiResult : Option AiResult
  connected : Bool
  append_ok : Nat → Bool
  resize_ok : Nat → Bool
  now : String
  nowDMY : String
  reportText : String

/-- The bot's mutable state: the in-memory `current_balance`, the remote
ledger rows, the local CSV rows and `transaction_count`. -/
structure BotState where
  balance : Int
  ledgerRows : List (List Cell)
  csvRows : List (List Cell)
  txCount : Nat

/-- The JSON body of an inbound Fonnte webhook request. -/
structure WebhookData where
  sender : Option String
  message : Option String
  mediaUrl : Option String

/-- Observable outcome of one webhook invocation: HTTP status code, the
resulting bot state, and the WhatsApp replies sent (recipient, text). -/
structure WebhookResult where
  status : Nat
  state : BotState
  sent : List (String × String)

/-- The balance update of `process_transaction`: `+jumlah` for `IN`,
`-jumlah` for `OUT`, unchanged otherwise. -/
def new_balance (bal : Int) (r : AiResult) : Int :=
  if r.tipe = some "IN" then bal + r.jumlah.getD 0
  else if r.tipe = some "OUT" then bal - r.jumlah.getD 0
  else bal

/-- The `transaction_data` dict built by `process_transaction` (its `saldo` is
overwritten with the updated balance before saving). -/
def mk_transaction_data (now : String) (r : AiResult) (newBal : Int) : TxDict :=
  { tanggal := some now
    deskripsi := some (r.deskripsi.getD "")
    jumlah := some (r.jumlah.getD 0)
    tipe := some (r.tipe.getD "INFO")
    kategori := some (r.kategori.getD "Lainnya")
    saldo := some newBal
    bukti := some (r.bukti.getD "")
    priv := some "No" }

/-- `process_transaction` from `main.py`: classify (oracled), update the
in-memory balance, save to the sheet; only on success mirror to the CSV,
bump the counter and reply with the bot's acknowledgement. -/
def process_transaction (o : Oracle) (_message_text : String) (st : BotState) :
    String × BotState :=
  match o.aiResult with
  | none => ("❌ Gagal menganalisis transaksi. Coba lagi.", st)
  | some r =>
    let txd := mk_transaction_data o.now r (new_balance st.balance r)
    let sv := SheetsService.save_transaction o.connected o.append_ok o.resize_ok txd st.ledgerRows
    if sv.success = true then
      (r.tanggapan_bot.getD "✅ Transaksi berhasil dicatat!",
       { balance := new_balance st.balance r
         ledgerRows := sv.ledger
         csvRows := (BackupService.save_transaction txd st.csvRows).2
         txCount := st.txCount + 1 })
    else
      ("❌ Gagal menyimpan transaksi. Coba lagi.",
       { st with balance := new_balance st.balance r, ledgerRows := sv.ledger })

/-- `generate_daily_report`: its text is computed from remote sheet reads and
is carried by the oracle. -/
def generate_daily_report (o : Oracle) : String := o.reportText

/-- The balance reply of `handle_special_commands`. -/
def saldo_message (bal : Int) (nowDMY : String) : String :=
  "💰 **SALDO TERKINI**\n\n💵 Rp " ++ commaInt bal ++ "\n📅 " ++ nowDMY

/-- The help reply of `handle_special_commands`. -/
def help_text : String :=
  "🤖 **BOS UPETY BOT PRO 24/7**\n\n📋 **Cara Penggunaan:**\n• Kirim transaksi: \"beli rokok 25000\"\n• Kirim foto nota untuk bukti\n• Ketik \"laporan\" untuk laporan harian\n• Ketik \"saldo\" untuk cek saldo\n\n⏰ **Jadwal Otomatis:**\n• 23:50 - Laporan harian\n• 06:00 - Reminder saldo\n• 00:00 - Laporan performa sistem\n\n🔄 **Status:** Aktif 24/7"

/-- The rejection reply sent to a number that is not allow-listed. -/
def rejected_message : String := "❌ Akses ditolak. Nomor tidak terdaftar."

/-- `handle_special_commands` from `main.py`: keyword commands on the
lower-cased text, checked in source order. -/
def handle_special_commands (o : Oracle) (st : BotState) (message_text : String) :
    Option String :=
  let ml := asciiLower message_text
  if (pyContains ml "laporan hari ini" || pyContains ml "laporan") = true then
    some (generate_daily_report o)
  else if pyContains ml "saldo" = true then
    some (saldo_message st.balance o.nowDMY)
  else if (pyContains ml "help" || pyContains ml "bantuan") = true then
    some help_text
  else none

/-- The `/webhook` handler from `main.py`: missing body means 400, an
unlisted sender means 403 with a rejection reply and no further processing;
otherwise special commands are tried first, and a non-blank message is sent
through `process_transaction`. -/
def webhook (o : Oracle) (allowed : List String) (data : Option WebhookData)
    (st : BotState) : WebhookResult :=
  match data with
  | none => ⟨400, st, []⟩
  | some d =>
    let sender := stripPlus (d.sender.getD "")
    let message_text := d.message.getD ""
    if strMem sender allowed = false then
      ⟨403, st, [(sender, rejected_message)]⟩
    else
      match handle_special_commands o st message_text with
      | some resp => ⟨200, st, [(sender, resp)]⟩
      | none =>
        if isBlank message_text = false then
          let r := process_transaction o message_text st
          ⟨200, r.2, [(sender, r.1)]⟩
        else ⟨200, st, []⟩

/-- `ALLOWED_NUMBERS` from `main.py`: exactly the admin and bos numbers. -/
def allowed_numbers (admin bos : String) : List String := [admin, bos]

/-! ### `SchedulerService` (`scheduler.py`) -/

namespace SchedulerService

/-- The five callbacks wired up by `_setup_schedules`. -/
inductive SchedJob where
  | dailyReport
  | balanceReminder
  | systemReport
  | weeklyBackup
  | monthlyInsights
  deriving DecidableEq

/-- When a registered job fires: daily at a fixed time, weekly on a fixed day
and time, or monthly. -/
inductive SchedSpec where
  | dailyAt (t : String)
  | weeklyOn (day : String) (t : String)
  | monthly
  deriving DecidableEq

/-- `_setup_schedules`: the schedule table, in registration order. -/
def setup_schedules : List (SchedSpec × SchedJob) :=
  [(.dailyAt "23:50", .dailyReport),
   (.dailyAt "06:00", .balanceReminder),
   (.dailyAt "00:00", .systemReport),
   (.weeklyOn "sunday" "01:00", .weeklyBackup),
   (.monthly, .monthlyInsights)]

/-- One observable action of the `_run_scheduler` loop body. -/
inductive SchedAction where
  | runPending
  | sleepSec (n : Nat)
  deriving DecidableEq, BEq

/-- The trace of `n` iterations of the `while self.running` loop of
`_run_scheduler`: each iteration polls the schedule table and sleeps 60
seconds (also on the exception path). -/
def run_scheduler : Nat → List SchedAction
  | 0 => []
  | n + 1 => .runPending :: .sleepSec 60 :: run_scheduler n

end SchedulerService

/-! ### Concrete fixtures used by witness theorems -/

/-- A classified outgoing purchase as the AI would return it. -/
def sampleAi : AiResult :=
  { deskripsi := some "beli rokok", jumlah := some 25000, tipe := some "OUT",
    kategori := some "Pribadi", bukti := some "", tanggapan_bot := some "✅ ok" }

/-- An oracle where classification, the sheet append and the column resize
all succeed. -/
def sampleOracle : Oracle :=
  { aiResult := some sampleAi, connected := true, append_ok := fun _ => true,
    resize_ok := fun _ => true, now := "2025-01-01 10:00:00",
    nowDMY := "01/01/2025 10:00", reportText := "LAPORAN" }

/-- An oracle where every `append_row` call fails (nothing is ever written). -/
def failOracle : Oracle := { sampleOracle with append_ok := fun _ => false }

/-- A classified incoming transfer as the AI would return it. -/
def inAi : AiResult :=
  { deskripsi := some "terima transfer", jumlah := some 25000, tipe := some "IN",
    kategori := some "Keuangan", bukti := some "", tanggapan_bot := some "✅ ok" }

/-- An oracle where the first attempt's `append_row` succeeds but its
`columns_auto_resize` raises, and the retried attempt succeeds — so one
save appends the row twice. -/
def dupOracle : Oracle :=
  { sampleOracle with aiResult := some inAi, resize_ok := fun n => n != 0 }

/-- An oracle where every `append_row` succeeds and every
`columns_auto_resize` raises: the save fails after appending three rows. -/
def resizeFailOracle : Oracle := { sampleOracle with resize_ok := fun _ => false }

/-- A bot state with a positive balance and empty ledgers. -/
def sampleState : BotState := { balance := 100000, ledgerRows := [], csvRows := [], txCount := 0 }

/-- The freshly-started bot state: zero balance, empty ledger and backup. -/
def emptyState : BotState := { balance := 0, ledgerRows := [], csvRows := [], txCount := 0 }

/-- A transaction dict with every key missing. -/
def emptyTxDict : TxDict := ⟨none, none, none, none, none, none, none, none⟩

/-- An old remote ledger row, first in the remote table. -/
def oldTx : Tx := ⟨"2020-01-01 08:00:00", "warisan", 1000, "IN", "Lainnya", 1000, "", "No"⟩

/-- A recent remote ledger row. -/
def newTx : Tx := ⟨"2024-01-01 08:00:00", "baru", 2000, "IN", "Lainnya", 2000, "", "No"⟩

/-- A remote table of 1001 rows whose oldest row falls outside the
1000-row window of `get_recent_transactions`. -/
def bigRemote : List Tx := oldTx :: List.replicate 1000 newTx

/-! ## Helper lemmas -/

/-- A prefix test with a longer needle subsumes the test with its first part. -/
theorem isPrefixOfL_of_append (a b l : List Char) (h : isPrefixOfL (a ++ b) l = true) :
    isPrefixOfL a l = true := by
  induction a generalizing l with
  | nil => rfl
  | cons x xs ih =>
    cases l with
    | nil => simp [isPrefixOfL] at h
    | cons y ys =>
      simp only [List.cons_append, isPrefixOfL, Bool.and_eq_true] at h ⊢
      exact ⟨h.1, ih ys h.2⟩

/-- If `a ++ b` occurs as a substring then so does `a`. -/
theorem containsL_of_append (a b hay : List Char) (h : containsL (a ++ b) hay = true) :
    containsL a hay = true := by
  induction hay with
  | nil =>
    cases a with
    | nil => rfl
    | cons x xs => simp [containsL, isPrefixOfL] at h
  | cons y ys ih =>
    simp only [containsL, Bool.or_eq_true] at h ⊢
    rcases h with h | h
    · exact Or.inl (isPrefixOfL_of_append a b _ h)
    · exact Or.inr (ih h)

/-- A text containing `"laporan hari ini"` also contains `"laporan"`. -/
theorem pyContains_laporan (ml : String) (h : pyContains ml "laporan hari ini" = true) :
    pyContains ml "laporan" = true := by
  have e : ("laporan hari ini").data = ("laporan").data ++ (" hari ini").data := by decide
  unfold pyContains at h ⊢
  rw [e] at h
  exact containsL_of_append _ _ _ h

/-- `strMem` agrees with list membership. -/
theorem strMem_iff (s : String) (l : List String) : strMem s l = true ↔ s ∈ l := by
  induction l with
  | nil => simp [strMem]
  | cons x xs ih =>
    simp only [strMem, Bool.or_eq_true, beq_iff_eq, ih, List.mem_cons]
    constructor
    · rintro (h | h)
      · exact Or.inl h.symm
      · exact Or.inr h
    · rintro (h | h)
      · exact Or.inl h.symm
      · exact Or.inr h

/-- The ledger after `save_transaction`: one copy of the row per attempt whose
`append_row` succeeded (none at all when no worksheet is connected). -/
theorem save_ledger_replicate (connected : Bool) (append_ok resize_ok : Nat → Bool)
    (d : TxDict) (ws : List (List Cell)) :
    (SheetsService.save_transaction connected append_ok resize_ok d ws).ledger =
      ws ++ List.replicate
        (if connected = true then SheetsService.append_count append_ok resize_ok else 0)
        (SheetsService.row_data d) := by
  cases connected with
  | false => simp [SheetsService.save_transaction]
  | true =>
    cases h0 : append_ok 0 <;> cases g0 : resize_ok 0 <;>
      cases h1 : append_ok 1 <;> cases g1 : resize_ok 1 <;>
      cases h2 : append_ok 2 <;> cases g2 : resize_ok 2 <;>
      simp [SheetsService.save_transaction, SheetsService.append_count,
        h0, g0, h1, g1, h2, g2, List.replicate, List.append_assoc]

/-- A `save_transaction` call can only succeed on a connected worksheet. -/
theorem save_success_connected (connected : Bool) (append_ok resize_ok : Nat → Bool)
    (d : TxDict) (ws : List (List Cell))
    (h : (SheetsService.save_transaction connected append_ok resize_ok d ws).success = true) :
    connected = true := by
  cases hc : connected with
  | true => rfl
  | false =>
    rw [hc] at h
    exact absurd h (by simp [SheetsService.save_transaction])

/-- At most three rows can be appended by one `save_transaction` call. -/
theorem append_count_le_three (append_ok resize_ok : Nat → Bool) :
    SheetsService.append_count append_ok resize_ok ≤ 3 := by
  cases h0 : append_ok 0 <;> cases g0 : resize_ok 0 <;>
    cases h1 : append_ok 1 <;> cases g1 : resize_ok 1 <;>
    cases h2 : append_ok 2 <;>
    simp [SheetsService.append_count, h0, g0, h1, g1, h2]

/-- A successful `save_transaction` call appended at least one row: its final
attempt's `append_row` succeeded. -/
theorem append_count_pos_of_success (append_ok resize_ok : Nat → Bool) (d : TxDict)
    (ws : List (List Cell))
    (h : (SheetsService.save_transaction true append_ok resize_ok d ws).success = true) :
    1 ≤ SheetsService.append_count append_ok resize_ok := by
  revert h
  cases h0 : append_ok 0 <;> cases g0 : resize_ok 0 <;>
    cases h1 : append_ok 1 <;> cases g1 : resize_ok 1 <;>
    cases h2 : append_ok 2 <;> cases g2 : resize_ok 2 <;>
    simp [SheetsService.save_transaction, SheetsService.append_count,
      h0, g0, h1, g1, h2, g2]

/-- After appending at least one copy of a `row_data` row, the stored balance
read back from the sheet is that row's `saldo` value. -/
theorem get_current_balance_after_appends (ws : List (List Cell)) (d : TxDict) (k : Nat)
    (hk : 1 ≤ k) :
    SheetsService.get_current_balance (ws ++ List.replicate k (SheetsService.row_data d)) =
      d.saldo.getD 0 := by
  obtain ⟨j, rfl⟩ : ∃ j, k = j + 1 := ⟨k - 1, by omega⟩
  rw [List.replicate_succ', ← List.append_assoc]
  unfold SheetsService.get_current_balance
  rw [List.getLast?_concat]
  rfl

/-- No digit runs exist in a digit-free string. -/
theorem digitRunsAux_no_digit (cs : List Char) (h : ∀ c ∈ cs, c.isDigit = false) :
    digitRunsAux cs [] = [] := by
  induction cs with
  | nil => rfl
  | cons c cs ih =>
    have hc : c.isDigit = false := h c (List.mem_cons_self c cs)
    simp only [digitRunsAux, hc, Bool.false_eq_true, if_false, List.isEmpty_nil, if_true]
    exact ih fun x hx => h x (List.mem_cons_of_mem c hx)

/-! ## Claim theorems -/

/-- C9: for every message the keyword fallback classifier returns a direction
out of the closed set `IN/OUT/INFO`, a category out of the closed
seven-element enumeration, and an amount equal to the value of the last run
of digits in the message, `0` when the message has no digit. -/
theorem c9_fallback_closed_sets (message_text ai_response : String) :
    (fallback_parse message_text ai_response).tipe = some (fallback_tipe message_text) ∧
    fallback_tipe message_text ∈ ["IN", "OUT", "INFO"] ∧
    (fallback_parse message_text ai_response).kategori = some (fallback_kategori message_text) ∧
    fallback_kategori message_text ∈
      ["Makanan & Minuman", "Transportasi", "Hiburan", "Pribadi",
       "Rumah Tangga", "Keuangan", "Lainnya"] ∧
    (fallback_parse message_text ai_response).jumlah = some (Int.ofNat (lastAmount message_text)) ∧
    (message_text.data.any Char.isDigit = false → lastAmount message_text = 0) := by
  refine ⟨rfl, ?_, rfl, ?_, rfl, ?_⟩
  · simp only [fallback_tipe]
    split
    · simp
    · split
      · simp
      · simp
  · simp only [fallback_kategori]
    split
    · simp
    · split
      · simp
      · split
        · simp
        · split
          · simp
          · split
            · simp
            · split
              · simp
              · simp
  · intro h
    have h' : ∀ c ∈ message_text.data, c.isDigit = false := by
      intro c hc
      by_contra hcd
      have : message_text.data.any Char.isDigit = true :=
        List.any_eq_true.mpr ⟨c, hc, by simpa using hcd⟩
      rw [this] at h
      exact Bool.true_eq_false.mp h
    unfold lastAmount digitRuns
    rw [digitRunsAux_no_digit _ h']
    rfl

/-- C9 witness: a digit-free message classifies as informational with amount 0. -/
theorem c9_fallback_witness : (fallback_parse "halo bos" "").jumlah = some 0 := by
  have h := c9_fallback_closed_sets "halo bos" ""
  have h0 := h.2.2.2.2.2 (by decide)
  rw [h.2.2.2.2.1, h0]
  rfl

/-- C8: `_setup_schedules` registers exactly five fixed-time callbacks — daily
report at 23:50, balance reminder at 06:00, system performance report at
00:00, weekly backup on Sunday at 01:00, and monthly insights — and every
iteration of the `_run_scheduler` loop polls the schedule table once and
then sleeps 60 seconds. -/
theorem c8_scheduler_table_and_poll :
    SchedulerService.setup_schedules.length = 5 ∧
    SchedulerService.setup_schedules =
      [(.dailyAt "23:50", .dailyReport),
       (.dailyAt "06:00", .balanceReminder),
       (.dailyAt "00:00", .systemReport),
       (.weeklyOn "sunday" "01:00", .weeklyBackup),
       (.monthly, .monthlyInsights)] ∧
    ∀ n : Nat, SchedulerService.run_scheduler n =
      (List.replicate n
        [SchedulerService.SchedAction.runPending, SchedulerService.SchedAction.sleepSec 60]).flatten := by
  refine ⟨rfl, rfl, ?_⟩
  intro n
  induction n with
  | zero => rfl
  | succ n ih => simp [SchedulerService.run_scheduler, List.replicate_succ, ih]

/-- C6 counterexample: one successful `save_transaction` call appends the row
twice when the first attempt's `columns_auto_resize` raises after a
successful `append_row` and the retry succeeds — refuting "every ledger
append writes exactly one row". -/
theorem c6_duplicate_append_counterexample :
    (SheetsService.save_transaction true (fun _ => true) (fun n => n != 0)
        emptyTxDict []).success = true ∧
    (SheetsService.save_transaction true (fun _ => true) (fun n => n != 0)
        emptyTxDict []).ledger.length = 2 ∧
    (SheetsService.save_transaction true (fun _ => true) (fun n => n != 0)
        emptyTxDict []).ledger.length ≠ 1 := by
  refine ⟨rfl, rfl, ?_⟩
  decide

/-- C6 (amended): both `save_transaction` writers build the same row of
exactly eight cells in the fixed order (timestamp, description, amount,
type, category, running balance, evidence link, visibility flag) and a
fully-missing dict yields the defaults; the CSV writer appends exactly one
such row per call, but the sheet writer appends one copy per attempt whose
`append_row` succeeded — between 0 and 3 copies, at least one when the
call succeeds — so a single sheet save can write duplicate rows. -/
theorem c6_row_shape_and_append (d : TxDict) (connected : Bool)
    (append_ok resize_ok : Nat → Bool) (ws csv : List (List Cell)) :
    SheetsService.row_data d = BackupService.row_data d ∧
    (SheetsService.row_data d).length = 8 ∧
    SheetsService.row_data emptyTxDict =
      [.s "", .s "", .i 0, .s "INFO", .s "Lainnya", .i 0, .s "", .s "No"] ∧
    (SheetsService.save_transaction connected append_ok resize_ok d ws).ledger =
      ws ++ List.replicate
        (if connected = true then SheetsService.append_count append_ok resize_ok else 0)
        (SheetsService.row_data d) ∧
    SheetsService.append_count append_ok resize_ok ≤ 3 ∧
    ((SheetsService.save_transaction connected append_ok resize_ok d ws).success = true →
      1 ≤ SheetsService.append_count append_ok resize_ok) ∧
    (BackupService.save_transaction d csv).2 = csv ++ [BackupService.row_data d] := by
  refine ⟨rfl, rfl, rfl, save_ledger_replicate connected append_ok resize_ok d ws,
    append_count_le_three append_ok resize_ok, ?_, rfl⟩
  intro h
  have hc := save_success_connected connected append_ok resize_ok d ws h
  rw [hc] at h
  exact append_count_pos_of_success append_ok resize_ok d ws h

/-- C6 witness: a clean save appends exactly one row. -/
theorem c6_row_shape_witness :
    1 ≤ SheetsService.append_count (fun _ => true) (fun _ => true) ∧
    (SheetsService.save_transaction true (fun _ => true) (fun _ => true)
        emptyTxDict []).ledger.length = 1 := by
  have h := c6_row_shape_and_append emptyTxDict true (fun _ => true) (fun _ => true) [] []
  refine ⟨h.2.2.2.2.2.1 rfl, ?_⟩
  rw [h.2.2.2.1]
  rfl

/-- C2 counterexample: when the Gemini call raises (network error), the text
classifier returns `None`, not the keyword fallback result — refuting the
claim that an errored call falls back to the heuristic classification. -/
theorem c2_errored_call_no_fallback :
    GeminiService.analyze_transaction (fun _ => none) "beli rokok 25000"
        AiCallOutcome.netError = none ∧
    GeminiService.analyze_transaction (fun _ => none) "beli rokok 25000"
        AiCallOutcome.netError ≠ some (fallback_parse "beli rokok 25000" "") :=
  ⟨rfl, fun h => Option.noConfusion h⟩

/-- C2 (amended): only JSON-parse failures (or missing required fields) on a
successful HTTP 200 response are answered by the keyword fallback
classification, which exists for every message; an exception in the call or
a non-200 status makes `analyze_transaction` return `None` instead. -/
theorem c2_fallback_on_parse_failure (parseJson : String → Option AiResult)
    (message_text content : String) :
    (parseJson content = none →
      GeminiService.analyze_transaction parseJson message_text (.http 200 content) =
        some (fallback_parse message_text content)) ∧
    (∀ r, parseJson content = some r → has_required r = false →
      GeminiService.analyze_transaction parseJson message_text (.http 200 content) =
        some (fallback_parse message_text content)) ∧
    GeminiService.analyze_transaction parseJson message_text .netError = none ∧
    (∀ status, status ≠ 200 →
      GeminiService.analyze_transaction parseJson message_text (.http status content) = none) := by
  refine ⟨?_, ?_, rfl, ?_⟩
  · intro h
    simp [GeminiService.analyze_transaction, GeminiService.analyze_transaction_run,
      GeminiService.analyze_text_only, retry3, h]
  · intro r hr hreq
    simp [GeminiService.analyze_transaction, GeminiService.analyze_transaction_run,
      GeminiService.analyze_text_only, retry3, hr, hreq]
  · intro status hs
    simp [GeminiService.analyze_transaction, GeminiService.analyze_transaction_run,
      GeminiService.analyze_text_only, retry3, hs]

/-- C2 witness: an unparsable 200 response is classified by the fallback. -/
theorem c2_fallback_witness :
    GeminiService.analyze_transaction (fun _ => none) "beli rokok 25000"
        (.http 200 "no json here") =
      some (fallback_parse "beli rokok 25000" "no json here") :=
  (c2_fallback_on_parse_failure (fun _ => none) "beli rokok 25000" "no json here").1 rfl

/-- C1 counterexample: one processed IN transaction of 25000 on an empty
ledger appends two identical rows (append succeeds, resize raises, append
retried), and the second row's stored saldo is 25000, not the prefix sum
50000 of the two direction-signed amounts in row order — refuting the
one-new-row, prefix-sum reading of the claim. -/
theorem c1_duplicate_row_counterexample :
    ((process_transaction dupOracle "terima transfer 25000" emptyState).2).ledgerRows.length =
      2 ∧
    ((process_transaction dupOracle "terima transfer 25000" emptyState).2).ledgerRows.get? 0 =
      ((process_transaction dupOracle "terima transfer 25000" emptyState).2).ledgerRows.get?
        1 ∧
    (((process_transaction dupOracle "terima transfer 25000" emptyState).2).ledgerRows.get?
        1).bind (fun row => row.get? 5) = some (Cell.i 25000) ∧
    (((process_transaction dupOracle "terima transfer 25000" emptyState).2).ledgerRows.get?
        1).bind (fun row => row.get? 5) ≠ some (Cell.i (0 + 25000 + 25000)) := by
  refine ⟨rfl, rfl, rfl, ?_⟩
  decide

/-- C1 (amended): when a transaction is classified and its ledger save
succeeds, the new ledger is the old ledger plus between 1 and 3 identical
copies of one row (one per attempt whose `append_row` succeeded before a
failed `columns_auto_resize` forced a retry); each copy's `saldo` cell
(index 5) holds the updated balance — previous balance plus the amount for
`IN`, minus the amount for `OUT`, unchanged for `INFO` — so the saldo
column is a prefix sum over direction-signed amounts only when the save
appended exactly one copy. -/
theorem c1_saldo_rows (o : Oracle) (message_text : String) (st : BotState) (r : AiResult)
    (hAi : o.aiResult = some r)
    (hSave : (SheetsService.save_transaction o.connected o.append_ok o.resize_ok
        (mk_transaction_data o.now r (new_balance st.balance r)) st.ledgerRows).success = true) :
    ((process_transaction o message_text st).2).ledgerRows =
      st.ledgerRows ++
        List.replicate (SheetsService.append_count o.append_ok o.resize_ok)
          (SheetsService.row_data (mk_transaction_data o.now r (new_balance st.balance r))) ∧
    1 ≤ SheetsService.append_count o.append_ok o.resize_ok ∧
    SheetsService.append_count o.append_ok o.resize_ok ≤ 3 ∧
    (SheetsService.row_data (mk_transaction_data o.now r (new_balance st.balance r))).get? 5 =
      some (.i ((process_transaction o message_text st).2).balance) ∧
    (r.tipe = some "IN" →
      ((process_transaction o message_text st).2).balance = st.balance + r.jumlah.getD 0) ∧
    (r.tipe = some "OUT" →
      ((process_transaction o message_text st).2).balance = st.balance - r.jumlah.getD 0) ∧
    (r.tipe = some "INFO" →
      ((process_transaction o message_text st).2).balance = st.balance) ∧
    (SheetsService.append_count o.append_ok o.resize_ok = 1 →
      ((process_transaction o message_text st).2).ledgerRows =
        st.ledgerRows ++
          [SheetsService.row_data (mk_transaction_data o.now r (new_balance st.balance r))]) := by
  have hconn : o.connected = true := save_success_connected _ _ _ _ _ hSave
  have hpos : 1 ≤ SheetsService.append_count o.append_ok o.resize_ok := by
    rw [hconn] at hSave
    exact append_count_pos_of_success _ _ _ _ hSave
  have hst : (process_transaction o message_text st).2 =
      { balance := new_balance st.balance r
        ledgerRows := (SheetsService.save_transaction o.connected o.append_ok o.resize_ok
          (mk_transaction_data o.now r (new_balance st.balance r)) st.ledgerRows).ledger
        csvRows := (BackupService.save_transaction
          (mk_transaction_data o.now r (new_balance st.balance r)) st.csvRows).2
        txCount := st.txCount + 1 } := by
    simp only [process_transaction, hAi]
    rw [if_pos hSave]
  have hledger : ((process_transaction o message_text st).2).ledgerRows =
      st.ledgerRows ++
        List.replicate (SheetsService.append_count o.append_ok o.resize_ok)
          (SheetsService.row_data (mk_transaction_data o.now r (new_balance st.balance r))) := by
    rw [hst]
    rw [save_ledger_replicate, hconn]
    simp
  refine ⟨hledger, hpos, append_count_le_three _ _, ?_, ?_, ?_, ?_, ?_⟩
  · rw [hst]
    rfl
  · intro h
    rw [hst]
    simp [new_balance, h]
  · intro h
    rw [hst]
    simp [new_balance, h]
  · intro h
    rw [hst]
    simp [new_balance, h]
  · intro h1
    rw [hledger, h1]
    rfl

/-- C1 witness: a clean OUT transaction of 25000 on balance 100000 appends
exactly one row and drops the balance to 75000. -/
theorem c1_saldo_witness :
    ((process_transaction sampleOracle "beli rokok 25000" sampleState).2).balance =
      sampleState.balance - 25000 ∧
    ((process_transaction sampleOracle "beli rokok 25000" sampleState).2).ledgerRows =
      sampleState.ledgerRows ++
        [SheetsService.row_data
          (mk_transaction_data sampleOracle.now sampleAi
            (new_balance sampleState.balance sampleAi))] := by
  have h := c1_saldo_rows sampleOracle "beli rokok 25000" sampleState sampleAi rfl rfl
  exact ⟨h.2.2.2.2.2.1 rfl, h.2.2.2.2.2.2.2 rfl⟩

/-- C10 counterexample: when every `append_row` succeeds but every
`columns_auto_resize` raises, the save fails and the failure reply is
returned with no CSV row, yet rows carrying the new saldo were appended,
so the in-memory balance (moved from 0 to -25000) equals the ledger's last
stored balance — refuting the claimed divergence. -/
theorem c10_partial_append_counterexample :
    (process_transaction resizeFailOracle "beli rokok 25000" emptyState).1 =
      "❌ Gagal menyimpan transaksi. Coba lagi." ∧
    ((process_transaction resizeFailOracle "beli rokok 25000" emptyState).2).csvRows = [] ∧
    ((process_transaction resizeFailOracle "beli rokok 25000" emptyState).2).balance ≠
      emptyState.balance ∧
    ((process_transaction resizeFailOracle "beli rokok 25000" emptyState).2).balance =
      SheetsService.get_current_balance
        (((process_transaction resizeFailOracle "beli rokok 25000" emptyState).2).ledgerRows) := by
  refine ⟨rfl, rfl, ?_, rfl⟩
  decide

/-- C10 (amended): when classification succeeded but the ledger save fails,
the reply is the save-failure message, no CSV row is written, and the
in-memory balance keeps the direction-signed update without rollback; the
ledger retains one copy of the row (carrying the new saldo) per attempt
whose `append_row` succeeded before `columns_auto_resize` raised, so the
in-memory balance diverges from the ledger's last stored balance exactly
when no attempt appended a row and the signed amount is non-zero — when a
partial append occurred, the last stored balance already equals the
updated in-memory balance. -/
theorem c10_partial_failure (o : Oracle) (message_text : String) (st : BotState) (r : AiResult)
    (hAi : o.aiResult = some r)
    (hSave : (SheetsService.save_transaction o.connected o.append_ok o.resize_ok
        (mk_transaction_data o.now r (new_balance st.balance r)) st.ledgerRows).success = false) :
    (process_transaction o message_text st).1 = "❌ Gagal menyimpan transaksi. Coba lagi." ∧
    ((process_transaction o message_text st).2).csvRows = st.csvRows ∧
    ((process_transaction o message_text st).2).balance = new_balance st.balance r ∧
    ((process_transaction o message_text st).2).ledgerRows =
      st.ledgerRows ++
        List.replicate
          (if o.connected = true then
            SheetsService.append_count o.append_ok o.resize_ok else 0)
          (SheetsService.row_data (mk_transaction_data o.now r (new_balance st.balance r))) ∧
    (o.connected = true → 1 ≤ SheetsService.append_count o.append_ok o.resize_ok →
      SheetsService.get_current_balance
          (((process_transaction o message_text st).2).ledgerRows) =
        new_balance st.balance r) ∧
    ((if o.connected = true then SheetsService.append_count o.append_ok o.resize_ok else 0) =
        0 →
      st.balance = SheetsService.get_current_balance st.ledgerRows →
      new_balance st.balance r ≠ st.balance →
      ((process_transaction o message_text st).2).balance ≠
        SheetsService.get_current_balance
          (((process_transaction o message_text st).2).ledgerRows)) := by
  have hcond : ¬ ((SheetsService.save_transaction o.connected o.append_ok o.resize_ok
      (mk_transaction_data o.now r (new_balance st.balance r)) st.ledgerRows).success = true) := by
    simp [hSave]
  have hpair : process_transaction o message_text st =
      ("❌ Gagal menyimpan transaksi. Coba lagi.",
        { st with balance := new_balance st.balance r
                  ledgerRows := (SheetsService.save_transaction o.connected o.append_ok
                    o.resize_ok (mk_transaction_data o.now r (new_balance st.balance r))
                    st.ledgerRows).ledger }) := by
    simp only [process_transaction, hAi]
    rw [if_neg hcond]
  have hledger : ((process_transaction o message_text st).2).ledgerRows =
      st.ledgerRows ++
        List.replicate
          (if o.connected = true then
            SheetsService.append_count o.append_ok o.resize_ok else 0)
          (SheetsService.row_data (mk_transaction_data o.now r (new_balance st.balance r))) := by
    rw [hpair]
    exact save_ledger_replicate _ _ _ _ _
  refine ⟨?_, ?_, ?_, hledger, ?_, ?_⟩
  · rw [hpair]
  · rw [hpair]
  · rw [hpair]
  · intro hc hpos
    rw [hledger, hc, if_pos rfl]
    rw [get_current_balance_after_appends _ _ _ hpos]
    rfl
  · intro hzero hbal hne
    have hled0 : ((process_transaction o message_text st).2).ledgerRows = st.ledgerRows := by
      rw [hledger, hzero]
      simp
    rw [hled0, hpair]
    simpa [hbal] using hne

/-- C10 witness: with an empty ledger (stored balance 0) and every
`append_row` failing, an OUT transaction leaves the in-memory balance at
-25000 while the ledger's last stored balance stays 0 — the divergence. -/
theorem c10_partial_failure_witness :
    ((process_transaction failOracle "beli rokok 25000" emptyState).2).balance ≠
      SheetsService.get_current_balance
        (((process_transaction failOracle "beli rokok 25000" emptyState).2).ledgerRows) := by
  have h := c10_partial_failure failOracle "beli rokok 25000" emptyState sampleAi rfl rfl
  exact h.2.2.2.2.2 rfl rfl (by decide)

/-- C4: a webhook request whose (plus-stripped) sender is neither the admin
nor the bos number is answered with HTTP 403 and a rejection reply, and the
bot state — balance, remote ledger and local CSV — is untouched. -/
theorem c4_unauthorized_rejected (o : Oracle) (admin bos : String) (d : WebhookData)
    (st : BotState)
    (hAuth : strMem (stripPlus (d.sender.getD "")) (allowed_numbers admin bos) = false) :
    webhook o (allowed_numbers admin bos) (some d) st =
      ⟨403, st, [(stripPlus (d.sender.getD ""), rejected_message)]⟩ ∧
    (webhook o (allowed_numbers admin bos) (some d) st).state.balance = st.balance ∧
    (webhook o (allowed_numbers admin bos) (some d) st).state.ledgerRows = st.ledgerRows ∧
    (webhook o (allowed_numbers admin bos) (some d) st).state.csvRows = st.csvRows := by
  have h : webhook o (allowed_numbers admin bos) (some d) st =
      ⟨403, st, [(stripPlus (d.sender.getD ""), rejected_message)]⟩ := by
    simp only [webhook]
    rw [if_pos hAuth]
  exact ⟨h, by rw [h], by rw [h], by rw [h]⟩

/-- C4 witness: the sender +999 is rejected with 403 and an unchanged state. -/
theorem c4_unauthorized_witness :
    (webhook sampleOracle (allowed_numbers "6282181151735" "628115302098")
        (some ⟨some "+999", some "saldo", none⟩) sampleState).status = 403 ∧
    (webhook sampleOracle (allowed_numbers "6282181151735" "628115302098")
        (some ⟨some "+999", some "saldo", none⟩) sampleState).state.balance =
      sampleState.balance := by
  have h := c4_unauthorized_rejected sampleOracle "6282181151735" "628115302098"
    ⟨some "+999", some "saldo", none⟩ sampleState (by decide)
  exact ⟨by rw [h.1], h.2.1⟩

/-- C5: for an allow-listed sender, routing is exclusive and exhaustive in the
source's priority order: a text containing `laporan` gets the daily report,
otherwise one containing `saldo` gets the balance reply, otherwise one
containing `help` or `bantuan` gets the help reply — all three leaving the
state untouched — and otherwise a non-blank text is handed to
`process_transaction`. -/
theorem c5_command_routing (o : Oracle) (admin bos : String) (d : WebhookData) (st : BotState)
    (hAuth : strMem (stripPlus (d.sender.getD "")) (allowed_numbers admin bos) = true) :
    (pyContains (asciiLower (d.message.getD "")) "laporan" = true →
      webhook o (allowed_numbers admin bos) (some d) st =
        ⟨200, st, [(stripPlus (d.sender.getD ""), generate_daily_report o)]⟩) ∧
    (pyContains (asciiLower (d.message.getD "")) "laporan" = false →
      pyContains (asciiLower (d.message.getD "")) "saldo" = true →
      webhook o (allowed_numbers admin bos) (some d) st =
        ⟨200, st, [(stripPlus (d.sender.getD ""), saldo_message st.balance o.nowDMY)]⟩) ∧
    (pyContains (asciiLower (d.message.getD "")) "laporan" = false →
      pyContains (asciiLower (d.message.getD "")) "saldo" = false →
      (pyContains (asciiLower (d.message.getD "")) "help" = true ∨
        pyContains (asciiLower (d.message.getD "")) "bantuan" = true) →
      webhook o (allowed_numbers admin bos) (some d) st =
        ⟨200, st, [(stripPlus (d.sender.getD ""), help_text)]⟩) ∧
    (pyContains (asciiLower (d.message.getD "")) "laporan" = false →
      pyContains (asciiLower (d.message.getD "")) "saldo" = false →
      pyContains (asciiLower (d.message.getD "")) "help" = false →
      pyContains (asciiLower (d.message.getD "")) "bantuan" = false →
      isBlank (d.message.getD "") = false →
      webhook o (allowed_numbers admin bos) (some d) st =
        ⟨200, (process_transaction o (d.message.getD "") st).2,
          [(stripPlus (d.sender.getD ""), (process_transaction o (d.message.getD "") st).1)]⟩) := by
  have hpass : ¬ (strMem (stripPlus (d.sender.getD "")) (allowed_numbers admin bos) = false) := by
    simp [hAuth]
  refine ⟨?_, ?_, ?_, ?_⟩
  · intro h1
    have hcmd : handle_special_commands o st (d.message.getD "") =
        some (generate_daily_report o) := by
      simp [handle_special_commands, h1]
    simp only [webhook]
    rw [if_neg hpass, hcmd]
  · intro h1 h2
    have hlhi : pyContains (asciiLower (d.message.getD "")) "laporan hari ini" = false := by
      cases hx : pyContains (asciiLower (d.message.getD "")) "laporan hari ini"
      · rfl
      · exact absurd (pyContains_laporan _ hx) (by simp [h1])
    have hcmd : handle_special_commands o st (d.message.getD "") =
        some (saldo_message st.balance o.nowDMY) := by
      simp [handle_special_commands, h1, hlhi, h2]
    simp only [webhook]
    rw [if_neg hpass, hcmd]
  · intro h1 h2 h3
    have hlhi : pyContains (asciiLower (d.message.getD "")) "laporan hari ini" = false := by
      cases hx : pyContains (asciiLower (d.message.getD "")) "laporan hari ini"
      · rfl
      · exact absurd (pyContains_laporan _ hx) (by simp [h1])
    have hcmd : handle_special_commands o st (d.message.getD "") = some help_text := by
      rcases h3 with h3 | h3
      · simp [handle_special_commands, h1, hlhi, h2, h3]
      · simp [handle_special_commands, h1, hlhi, h2, h3]
    simp only [webhook]
    rw [if_neg hpass, hcmd]
  · intro h1 h2 h3 h4 h5
    have hlhi : pyContains (asciiLower (d.message.getD "")) "laporan hari ini" = false := by
      cases hx : pyContains (asciiLower (d.message.getD "")) "laporan hari ini"
      · rfl
      · exact absurd (pyContains_laporan _ hx) (by simp [h1])
    have hcmd : handle_special_commands o st (d.message.getD "") = none := by
      simp [handle_special_commands, h1, hlhi, h2, h3, h4]
    simp only [webhook]
    rw [if_neg hpass, hcmd, if_pos h5]

/-- C5 witness: the admin texting "cek saldo dong" gets the balance reply and
no transaction is recorded. -/
theorem c5_command_routing_witness :
    webhook sampleOracle (allowed_numbers "6282181151735" "628115302098")
        (some ⟨some "6282181151735", some "cek saldo dong", none⟩) sampleState =
      ⟨200, sampleState,
        [(stripPlus ((some "6282181151735").getD ""),
          saldo_message sampleState.balance sampleOracle.nowDMY)]⟩ := by
  have h := c5_command_routing sampleOracle "6282181151735" "628115302098"
    ⟨some "6282181151735", some "cek saldo dong", none⟩ sampleState (by decide)
  exact h.2.1 (by decide) (by decide)

set_option maxRecDepth 4096 in
/-- C3: the shared retry loop makes at most 3 attempts, sleeps exactly 1
second between consecutive attempts (one fewer sleep than attempts, never a
different duration), and after three failures yields no result and marks
the service unhealthy; this covers the sheet append, while the AI
classifier's loop body never raises, so it always returns after the first
of its at most three attempts. -/
theorem c3_retry_discipline :
    (∀ (connected : Bool) (append_ok resize_ok : Nat → Bool) (d : TxDict)
        (ws : List (List Cell)),
      (SheetsService.save_transaction connected append_ok resize_ok d ws).attempts ≤ 3 ∧
      (SheetsService.save_transaction connected append_ok resize_ok d ws).sleeps.length =
        (SheetsService.save_transaction connected append_ok resize_ok d ws).attempts - 1 ∧
      (∀ t ∈ (SheetsService.save_transaction connected append_ok resize_ok d ws).sleeps,
        t = 1) ∧
      ((SheetsService.save_transaction connected append_ok resize_ok d ws).success = false →
        connected = true →
        (SheetsService.save_transaction connected append_ok resize_ok d ws).attempts = 3 ∧
        (SheetsService.save_transaction connected append_ok resize_ok d ws).healthSet =
          some false)) ∧
    (∀ (parseJson : String → Option AiResult) (message_text : String) (oc : AiCallOutcome),
      (GeminiService.analyze_transaction_run parseJson message_text oc).attempts ≤ 3 ∧
      (GeminiService.analyze_transaction_run parseJson message_text oc).attempts = 1 ∧
      (GeminiService.analyze_transaction_run parseJson message_text oc).sleeps = []) := by
  constructor
  · intro connected append_ok resize_ok d ws
    cases connected with
    | false =>
      refine ⟨?_, ?_, ?_, ?_⟩
      · simp [SheetsService.save_transaction]
      · simp [SheetsService.save_transaction]
      · simp [SheetsService.save_transaction]
      · intro _ hc
        exact absurd hc (by simp)
    | true =>
      cases hc0 : (append_ok 0 && resize_ok 0) <;>
        cases hc1 : (append_ok 1 && resize_ok 1) <;>
        cases hc2 : (append_ok 2 && resize_ok 2) <;>
        refine ⟨?_, ?_, ?_, ?_⟩ <;>
        simp [SheetsService.save_transaction, hc0, hc1, hc2]
  · intro parseJson message_text oc
    exact ⟨by simp [GeminiService.analyze_transaction_run, retry3],
      by simp [GeminiService.analyze_transaction_run, retry3],
      by simp [GeminiService.analyze_transaction_run, retry3]⟩

/-- C3 witness: a sheet append whose three attempts all fail stops at exactly
3 attempts, slept twice for 1 second, and marks the service unhealthy. -/
theorem c3_retry_witness :
    (SheetsService.save_transaction true (fun _ => false) (fun _ => true)
        emptyTxDict []).attempts = 3 ∧
    (SheetsService.save_transaction true (fun _ => false) (fun _ => true)
        emptyTxDict []).healthSet = some false ∧
    (∀ t ∈ (SheetsService.save_transaction true (fun _ => false) (fun _ => true)
        emptyTxDict []).sleeps, t = 1) := by
  have h := c3_retry_discipline.1 true (fun _ => false) (fun _ => true) emptyTxDict []
  have hf := h.2.2.2 rfl rfl
  exact ⟨hf.1, hf.2, h.2.2.1⟩

/-- The first component of `syncLoop` is the sublist of remote rows whose key
misses the local key set, in order. -/
theorem syncLoop_fst (keys : List String) (ts : List Tx) :
    (BackupService.syncLoop keys ts).1 =
      ts.filter fun t => !(strMem (BackupService.keyOf t) keys) := by
  induction ts with
  | nil => rfl
  | cons t ts ih =>
    cases h : strMem (BackupService.keyOf t) keys with
    | false => simp [BackupService.syncLoop, h, ih, List.filter_cons]
    | true => simp [BackupService.syncLoop, h, ih, List.filter_cons]

/-- The second component of `syncLoop` counts the appended rows. -/
theorem syncLoop_snd (keys : List String) (ts : List Tx) :
    (BackupService.syncLoop keys ts).2 =
      (ts.filter fun t => !(strMem (BackupService.keyOf t) keys)).length := by
  induction ts with
  | nil => rfl
  | cons t ts ih =>
    cases h : strMem (BackupService.keyOf t) keys with
    | false => simp [BackupService.syncLoop, h, ih, List.filter_cons]
    | true => simp [BackupService.syncLoop, h, ih, List.filter_cons]

/-- After one sync, every remote row's key is present locally. -/
theorem sync_covers (localTx sheetsTx : List Tx) (t : Tx) (ht : t ∈ sheetsTx) :
    strMem (BackupService.keyOf t)
      ((localTx ++
        (sheetsTx.filter fun u =>
          !(strMem (BackupService.keyOf u) (localTx.map BackupService.keyOf)))).map
        BackupService.keyOf) = true := by
  rw [strMem_iff, List.map_append]
  rcases hm : strMem (BackupService.keyOf t) (localTx.map BackupService.keyOf) with _ | _
  · refine List.mem_append.mpr (Or.inr ?_)
    exact List.mem_map.mpr ⟨t, List.mem_filter.mpr ⟨ht, by simp [hm]⟩, rfl⟩
  · exact List.mem_append.mpr (Or.inl ((strMem_iff _ _).mp hm))

/-- C7 counterexample: a 1001-row remote table's oldest row has a key absent
from the empty local backup, yet `sync_with_sheets` never appends it — the
code reconciles only the last 1000 remote rows
(`get_recent_transactions(1000)`) — refuting "exactly those remote rows
whose key is absent locally". -/
theorem c7_window_counterexample :
    oldTx ∈ bigRemote ∧
    strMem (BackupService.keyOf oldTx) (([] : List Tx).map BackupService.keyOf) = false ∧
    oldTx ∉ (BackupService.sync_with_sheets [] bigRemote).1 := by
  refine ⟨List.mem_cons_self oldTx (List.replicate 1000 newTx), rfl, ?_⟩
  intro hmem
  have hlen : bigRemote.length = 1001 := by
    simp only [bigRemote, List.length_cons, List.length_replicate]
  have hwin : SheetsService.get_recent_transactions 1000 bigRemote =
      List.replicate 1000 newTx := by
    unfold SheetsService.get_recent_transactions
    rw [hlen, if_pos (by norm_num), if_neg (by norm_num)]
    have hsub : (1001 - 1000 : Nat) = 1 := by norm_num
    rw [hsub]
    simp only [bigRemote, List.drop_succ_cons, List.drop_zero]
  have hfilter : ∀ l : List Tx,
      l.filter (fun t =>
        !(strMem (BackupService.keyOf t) (([] : List Tx).map BackupService.keyOf))) = l := by
    intro l
    induction l with
    | nil => rfl
    | cons a as ih =>
      rw [List.filter_cons_of_pos rfl, ih]
  have h1 : (BackupService.sync_with_sheets [] bigRemote).1 = List.replicate 1000 newTx := by
    simp only [BackupService.sync_with_sheets, syncLoop_fst]
    rw [hwin, hfilter, List.nil_append]
  rw [h1] at hmem
  exact (by decide : oldTx ≠ newTx) (List.eq_of_mem_replicate hmem)

/-- C7 (amended): `sync_with_sheets` reconciles the local backup against only
the most recent 1000 remote rows (`get_recent_transactions(1000)`): it
appends exactly those rows of that window whose description+date key is
absent locally (in window order), counts them, never touches existing
local rows or the remote table, and a second run on unchanged inputs syncs
zero rows; remote rows older than the window are never considered. -/
theorem c7_sync_windowed (localTx sheetsRecords : List Tx) :
    (BackupService.sync_with_sheets localTx sheetsRecords).1 =
      localTx ++
        ((SheetsService.get_recent_transactions 1000 sheetsRecords).filter fun t =>
          !(strMem (BackupService.keyOf t) (localTx.map BackupService.keyOf))) ∧
    (BackupService.sync_with_sheets localTx sheetsRecords).2.1 = sheetsRecords ∧
    (BackupService.sync_with_sheets localTx sheetsRecords).2.2 =
      ((SheetsService.get_recent_transactions 1000 sheetsRecords).filter fun t =>
        !(strMem (BackupService.keyOf t) (localTx.map BackupService.keyOf))).length ∧
    BackupService.sync_with_sheets (BackupService.sync_with_sheets localTx sheetsRecords).1
        sheetsRecords =
      ((BackupService.sync_with_sheets localTx sheetsRecords).1, sheetsRecords, 0) := by
  have h1 : (BackupService.sync_with_sheets localTx sheetsRecords).1 =
      localTx ++
        ((SheetsService.get_recent_transactions 1000 sheetsRecords).filter fun t =>
          !(strMem (BackupService.keyOf t) (localTx.map BackupService.keyOf))) := by
    simp only [BackupService.sync_with_sheets]
    rw [syncLoop_fst]
  refine ⟨h1, rfl, ?_, ?_⟩
  · simp only [BackupService.sync_with_sheets]
    rw [syncLoop_snd]
  · have hempty : ((SheetsService.get_recent_transactions 1000 sheetsRecords).filter fun t =>
        !(strMem (BackupService.keyOf t)
          ((localTx ++
            ((SheetsService.get_recent_transactions 1000 sheetsRecords).filter fun u =>
              !(strMem (BackupService.keyOf u) (localTx.map BackupService.keyOf)))).map
            BackupService.keyOf))) = [] := by
      refine List.filter_eq_nil_iff.mpr fun t ht => ?_
      have hc := sync_covers localTx (SheetsService.get_recent_transactions 1000 sheetsRecords)
        t ht
      simpa using hc
    simp only [BackupService.sync_with_sheets, syncLoop_fst, syncLoop_snd]
    rw [hempty]
    simp

end BotWA
